import Mathlib

/-
  Verification development for the oz sandbox repository.

  The definitions below are a shallow embedding of two Go source files:
  * oz-daemon/client.go (package ozinit - the sandbox init supervisor), and
  * openvpn/openvpn.go (the OpenVPN client-configuration translator).

  Pure computations (string handling, argv assembly, the ephemeral whitelist
  filter, the child-exit policy, the OpenVPN configuration translation)
  are translated directly; effectful operations (process spawning, PTY
  allocation, stat(2), /proc reads, Go's ambient os.Environ) are passed in
  as explicit parameters so that each handler becomes a total function.
-/

namespace Oz

/-! ### String helpers mirroring the Go standard library -/

/-- Character-list version of Go strings.HasPrefix. -/
def charsHaveLead : List Char → List Char → Bool
  | _, [] => true
  | [], _ :: _ => false
  | c :: cs, p :: ps => c == p && charsHaveLead cs ps

/-- Go strings.HasPrefix. -/
def strStartsWith (s pre : String) : Bool :=
  charsHaveLead s.toList pre.toList

/-- Character-list core of Go path.Base: strip trailing slashes, then keep
the run of characters after the last remaining slash. -/
def pathBaseChars (l : List Char) : List Char :=
  let l2 := l.reverse.dropWhile (fun c => c == '/')
  if l2.isEmpty then ['/'] else (l2.takeWhile (fun c => c != '/')).reverse

/-- Go path.Base (for the empty string it returns "."). -/
def pathBase (s : String) : String :=
  if s.toList.isEmpty then "." else String.mk (pathBaseChars s.toList)

/-- Go path.Dir restricted to the pre-cleaned paths the init uses: the
portion before the last slash (the Clean normalisation of degenerate
inputs such as doubled slashes is not modelled). -/
def pathDir (s : String) : String :=
  let l := s.toList
  if l.contains '/' then
    let d := ((l.reverse.dropWhile (fun c => c != '/')).drop 1).reverse
    if d.isEmpty then "/" else String.mk d
  else "."

/-- Go path.Join on two elements, for elements that are already clean:
empty elements are ignored and the rest are joined with a slash. -/
def pathJoin (a b : String) : String :=
  if a == "" then b else if b == "" then a else a ++ "/" ++ b

/-! ### Data model (package oz profile / config types, as used by client.go) -/

structure WhitelistItem where
  path : String
  target : String
  symlink : String
  readOnly : Bool
  canCreate : Bool
  ignore : Bool
  allowSetuid : Bool
  force : Bool
  noFollow : Bool
deriving DecidableEq

inductive SeccompMode
  | disabled
  | train
  | whitelist
  | blacklist
deriving DecidableEq

structure SeccompPolicy where
  mode : SeccompMode
  enforce : Bool
deriving DecidableEq

inductive ShutdownMode
  | no
  | yes
deriving DecidableEq

structure Profile where
  name : String
  path : String
  rejectUserArgs : Bool
  defaultParams : List String
  seccomp : SeccompPolicy
  isSandboxedTerminal : Bool
  watchdog : List String
  autoShutdown : ShutdownMode
  whitelist : List WhitelistItem
  sharedFolders : List String
deriving DecidableEq

structure OzConfig where
  allowRootShell : Bool
  shellPath : String
  prefixPath : String
  divertSuffix : String
  divertPath : Bool
deriving DecidableEq

structure Ucred where
  uid : Nat
  gid : Nat
  pid : Nat
deriving DecidableEq

/-- An IPC reply: OkMsg (optionally with ancillary file descriptors) or
ErrorMsg with a message string. -/
inductive Reply
  | ok (fds : List Nat)
  | errorMsg (msg : String)
deriving DecidableEq

/-! ### C1: the ephemeral whitelist / shared-folder filter -/

/-- The prefix test used by the ephemeral filters in client.go:
strings.HasPrefix(s, "$\x7bHOME\x7d") or strings.HasPrefix(s, "$\x7bXDG_"). -/
def startsHomeOrXdg (s : String) : Bool :=
  strStartsWith s "$\x7bHOME\x7d" || strStartsWith s "$\x7bXDG_"

/-- client.go whitelistItemIsEphemeral: when the item's target is non-empty
only the target is tested; the path is tested only when the target is
empty. Items with an empty path are never ephemeral. -/
def whitelistItemIsEphemeral (wl : WhitelistItem) : Bool :=
  if wl.path == "" then false
  else if wl.target != "" then startsHomeOrXdg wl.target
  else startsHomeOrXdg wl.path

/-- The ephemeral whitelist filter in setupFilesystem: the backwards
index-based removal of every non-empty-path item judged ephemeral is
order-preserving and equals this filter. -/
def ephemeralFilterWhitelist (wl : List WhitelistItem) : List WhitelistItem :=
  wl.filter (fun w => w.path == "" || !whitelistItemIsEphemeral w)

/-- The ephemeral shared-folder filter in runInit: drop every shared folder
whose string begins with one of the two prefixes. -/
def ephemeralFilterShared (sfs : List String) : List String :=
  sfs.filter (fun sf => !startsHomeOrXdg sf)

/-- C1 (counterexample): the claim says that with ephemeral=true every
whitelist item whose path OR target begins with "$\x7bHOME\x7d" or "$\x7bXDG_" is
dropped, so that afterwards no remaining item has such a path or target.
The item below has path "$\x7bHOME\x7d/foo" but a non-empty target "/abs", so
whitelistItemIsEphemeral inspects only the target and the item survives
the filter with a "$\x7bHOME\x7d"-prefixed path. -/
theorem c1_counterexample :
    ephemeralFilterWhitelist
        [⟨"$\x7bHOME\x7d/foo", "/abs", "", false, false, false, false, false, false⟩]
      = [⟨"$\x7bHOME\x7d/foo", "/abs", "", false, false, false, false, false, false⟩]
    ∧ startsHomeOrXdg "$\x7bHOME\x7d/foo" = true := by
  decide

/-- C1 (amended): with ephemeral=true, a shared folder beginning with
"$\x7bHOME\x7d" or "$\x7bXDG_" is always dropped; a whitelist item with non-empty
path is dropped according to its target when the target is non-empty and
according to its path otherwise. Hence after the filter no surviving
item with non-empty path has a non-empty target with one of the two
prefixes, and no surviving item with non-empty path and empty target has
a path with one of the two prefixes. -/
theorem c1_amended : ∀ (wl : List WhitelistItem) (sfs : List String),
    (∀ w ∈ ephemeralFilterWhitelist wl, w.path ≠ "" →
      (w.target ≠ "" → startsHomeOrXdg w.target = false) ∧
      (w.target = "" → startsHomeOrXdg w.path = false)) ∧
    (∀ sf ∈ ephemeralFilterShared sfs, startsHomeOrXdg sf = false) := by
  intro wl sfs
  constructor
  · intro w hw hpath
    have hkeep := (List.mem_filter.mp hw).2
    have heph : whitelistItemIsEphemeral w = false := by
      simp at hkeep
      rcases hkeep with h | h
      · exact absurd h hpath
      · exact h
    constructor
    · intro htgt
      have hIf : whitelistItemIsEphemeral w = startsHomeOrXdg w.target := by
        unfold whitelistItemIsEphemeral
        simp [hpath, htgt]
      rw [← hIf]
      exact heph
    · intro htgt
      have hIf : whitelistItemIsEphemeral w = startsHomeOrXdg w.path := by
        unfold whitelistItemIsEphemeral
        simp [hpath, htgt]
      rw [← hIf]
      exact heph
  · intro sf hsf
    have hkeep := (List.mem_filter.mp hsf).2
    simpa using hkeep

/-- C1 (witness): the amended theorem applied to a concrete whitelist and
shared-folder list. -/
theorem c1_witness :
    startsHomeOrXdg "/etc/ssl" = false := by
  have h := (c1_amended
      [⟨"/etc/ssl", "", "", true, false, false, false, false, false⟩]
      []).1
      ⟨"/etc/ssl", "", "", true, false, false, false, false, false⟩
      (by decide) (by decide)
  exact h.2 (by decide)

/-! ### C2: the RunShell handler -/

/-- The credential/argv/env/cwd data with which a child process is
started (exec.Cmd fields set before cmd.Start()). `dir = none` models an
unset cmd.Dir, i.e. the child inherits init's working directory. -/
structure SpawnSpec where
  path : String
  args : List String
  uid : Nat
  gid : Nat
  groups : List Nat
  env : List String
  dir : Option String
deriving DecidableEq

/-- The outcome of a RunShell request: the IPC reply and the shell
process spawned, if any. -/
structure RunShellRes where
  reply : Reply
  spawned : Option SpawnSpec
deriving DecidableEq

/-- client.go handleRunShell. The ambient pieces of initState are passed
explicitly (sandbox gid, the gids map as an association list, the launch
environment, st.user.HomeDir as an Option). The PTY allocation and shell
start (ptyStart) is effectful and is passed in as an Except: ok fd is a
successful start returning the PTY master descriptor. -/
def handleRunShell (cfg : OzConfig) (stGid : Nat) (stGids : List (String × Nat))
    (launchEnv : List String) (userHome : Option String)
    (ucred : Option Ucred) (term : String) (pty : Except String Nat) : RunShellRes :=
  match ucred with
  | none => ⟨.errorMsg "No credentials received for RunShell command", none⟩
  | some u =>
    if (u.uid = 0 ∨ u.gid = 0) ∧ cfg.allowRootShell = false then
      ⟨.errorMsg "Cannot open shell because allowRootShell is disabled", none⟩
    else
      let groups := stGid :: (if u.uid ≠ 0 ∧ u.gid ≠ 0 then stGids.map Prod.snd else [])
      let env := launchEnv ++ (if term ≠ "" then ["TERM=" ++ term] else [])
        ++ ["PS1=[\\h] $ "]
      let dir : Option String :=
        if u.uid ≠ 0 ∧ u.gid ≠ 0 then
          match userHome with
          | some h => if h ≠ "" then some h else none
          | none => none
        else none
      match pty with
      | .error e => ⟨.errorMsg e, none⟩
      | .ok fd => ⟨.ok [fd], some ⟨cfg.shellPath, ["-i"], u.uid, u.gid, groups, env, dir⟩⟩

/-- C2: a RunShell request with no peer credentials is answered Error; a
peer with uid=0 or gid=0 is answered Error exactly when AllowRootShell is
false; otherwise (when the PTY start succeeds) a shell config.ShellPath -i
is spawned with the peer's uid and gid, the mapped supplementary groups
are appended exactly when the peer is non-root (uid and gid both
non-zero), and the reply is Ok carrying the PTY master descriptor. -/
theorem c2_run_shell : ∀ (cfg : OzConfig) (stGid : Nat) (stGids : List (String × Nat))
    (launchEnv : List String) (userHome : Option String) (term : String)
    (pty : Except String Nat),
    (handleRunShell cfg stGid stGids launchEnv userHome none term pty
      = ⟨.errorMsg "No credentials received for RunShell command", none⟩) ∧
    (∀ u : Ucred, (u.uid = 0 ∨ u.gid = 0) → cfg.allowRootShell = false →
      handleRunShell cfg stGid stGids launchEnv userHome (some u) term pty
        = ⟨.errorMsg "Cannot open shell because allowRootShell is disabled", none⟩) ∧
    (∀ (u : Ucred) (fd : Nat), ¬((u.uid = 0 ∨ u.gid = 0) ∧ cfg.allowRootShell = false) →
      pty = .ok fd →
      handleRunShell cfg stGid stGids launchEnv userHome (some u) term pty
        = ⟨.ok [fd], some ⟨cfg.shellPath, ["-i"], u.uid, u.gid,
            stGid :: (if u.uid ≠ 0 ∧ u.gid ≠ 0 then stGids.map Prod.snd else []),
            launchEnv ++ (if term ≠ "" then ["TERM=" ++ term] else []) ++ ["PS1=[\\h] $ "],
            (if u.uid ≠ 0 ∧ u.gid ≠ 0 then
              match userHome with
              | some h => if h ≠ "" then some h else none
              | none => none
            else none)⟩⟩) ∧
    (∀ (u : Ucred) (fd : Nat), u.uid = 0 → pty = .ok fd →
      ((handleRunShell cfg stGid stGids launchEnv userHome (some u) term pty).reply
          = .errorMsg "Cannot open shell because allowRootShell is disabled"
        ↔ cfg.allowRootShell = false)) := by
  intro cfg stGid stGids launchEnv userHome term pty
  refine ⟨rfl, ?_, ?_, ?_⟩
  · intro u hroot hars
    simp only [handleRunShell]
    rw [if_pos (⟨hroot, hars⟩ : (u.uid = 0 ∨ u.gid = 0) ∧ cfg.allowRootShell = false)]
  · intro u fd hneg hpty
    subst hpty
    simp only [handleRunShell]
    rw [if_neg hneg]
  · intro u fd huid hpty
    subst hpty
    constructor
    · intro hrep
      by_contra hars
      simp only [handleRunShell] at hrep
      rw [if_neg (fun hc => hars hc.2)] at hrep
      exact absurd hrep (by simp)
    · intro hars
      simp only [handleRunShell]
      rw [if_pos (⟨Or.inl huid, hars⟩ : (u.uid = 0 ∨ u.gid = 0) ∧ cfg.allowRootShell = false)]

/-- C2 (witness): a root peer with AllowRootShell=false is rejected. -/
theorem c2_witness :
    handleRunShell ⟨false, "/bin/sh", "/opt/oz", "", false⟩ 1000 [("audio", 63)]
        ["PATH=/usr/bin:/bin"] (some "/home/user") (some ⟨0, 0, 7⟩) "xterm" (.ok 9)
      = ⟨.errorMsg "Cannot open shell because allowRootShell is disabled", none⟩ :=
  (c2_run_shell ⟨false, "/bin/sh", "/opt/oz", "", false⟩ 1000 [("audio", 63)]
      ["PATH=/usr/bin:/bin"] (some "/home/user") "xterm" (.ok 9)).2.1
    ⟨0, 0, 7⟩ (Or.inl rfl) rfl

/-! ### C5: the SetupForwarder handler -/

/-- client.go handleSetupForwarder up to the point where the accept loop
is armed: the handler returns a Go error when the message carries no
ancillary descriptor, and otherwise adopts msg.Fds[0] as the listening
socket (the accept-loop goroutine) and responds OkMsg. -/
def handleSetupForwarder (fds : List Nat) : Except String (Reply × Nat) :=
  match fds with
  | [] => .error "SetupForwarder message received, but no file descriptor included"
  | f :: _ => .ok (Reply.ok [], f)

/-- Modelled from the spec: the ipc.MsgServer dispatch code is not under
src/; per the spec (section 7) a per-request handler error is surfaced as
an Error message on the same IPC exchange and init continues serving.
The result is (reply, adopted listener, server keeps serving). -/
def dispatchForwarderResult : Except String (Reply × Nat) → Reply × Option Nat × Bool
  | .error m => (Reply.errorMsg m, none, true)
  | .ok (r, fd) => (r, some fd, true)

/-- C5 (counterexample): the claim says a SetupForwarder request requires
EXACTLY one ancillary descriptor, more than one being answered with an
Error. The handler only tests len(msg.Fds)==0: a request carrying two
descriptors is accepted, the first one is adopted, and the reply is Ok. -/
theorem c5_counterexample :
    dispatchForwarderResult (handleSetupForwarder [3, 4]) = (Reply.ok [], some 3, true) := by
  decide

/-- C5 (amended): a SetupForwarder request carrying no ancillary
descriptor is answered with an Error message and init continues serving;
a request carrying one or more descriptors has its first descriptor
adopted as the listening socket and is answered Ok. -/
theorem c5_amended : ∀ fds : List Nat,
    (fds = [] → dispatchForwarderResult (handleSetupForwarder fds)
      = (Reply.errorMsg "SetupForwarder message received, but no file descriptor included",
          none, true)) ∧
    (∀ f rest, fds = f :: rest → dispatchForwarderResult (handleSetupForwarder fds)
      = (Reply.ok [], some f, true)) := by
  intro fds
  constructor
  · intro h; subst h; rfl
  · intro f rest h; subst h; rfl

/-- C5 (witness): the amended theorem applied to an empty descriptor list. -/
theorem c5_witness :
    dispatchForwarderResult (handleSetupForwarder [])
      = (Reply.errorMsg "SetupForwarder message received, but no file descriptor included",
          none, true) :=
  (c5_amended []).1 rfl

/-! ### C9: the RunProgram handler with no_exec -/

/-- client.go handleRunProgram. The launcher calls are effectful and are
summarised by launchResult : Except String Nat (the pid of the started
process on success); on success launchTerminalApplication registers the
child untracked and launchApplication registers it tracked. In the
non-terminal no_exec case neither launcher runs, err stays nil and the
handler replies Ok. -/
def handleRunProgram (isSandboxedTerminal : Bool) (noExec : Bool)
    (launchResult : Except String Nat) (children : List (Nat × Bool)) :
    Reply × List (Nat × Bool) :=
  if isSandboxedTerminal then
    match launchResult with
    | .error e => (Reply.errorMsg e, children)
    | .ok pid => (Reply.ok [], children ++ [(pid, false)])
  else if noExec = false then
    match launchResult with
    | .error e => (Reply.errorMsg e, children)
    | .ok pid => (Reply.ok [], children ++ [(pid, true)])
  else (Reply.ok [], children)

/-- C9: with IsSandboxedTerminal=false and no_exec=true the handler
spawns nothing (the result ignores the launcher outcome entirely), the
child registry is unchanged, and the reply is Ok - the same reply a
successful launch produces. -/
theorem c9_noexec_ok : ∀ (launchResult : Except String Nat) (children : List (Nat × Bool)),
    handleRunProgram false true launchResult children = (Reply.ok [], children) ∧
    (∀ pid, handleRunProgram false false (.ok pid) children
      = (Reply.ok [], children ++ [(pid, true)])) := by
  intro launchResult children
  exact ⟨rfl, fun _ => rfl⟩

/-! ### C4: the child-exit / auto-shutdown policy -/

/-- Reading st.children[pid].track: a Go map read returning the zero
value (track=false) when the pid is absent. The registry is modelled as
an association list pid -> tracked. -/
def lookupTrack (children : List (Nat × Bool)) (pid : Nat) : Bool :=
  ((children.lookup pid).getD false)

/-- removeChildProcess: delete(st.children, pid). -/
def removeChild (children : List (Nat × Bool)) (pid : Nat) : List (Nat × Bool) :=
  children.filter (fun c => c.1 != pid)

/-- The scan over the remaining registry entries looking for a tracked
process. -/
def anyTracked (children : List (Nat × Bool)) : Bool :=
  children.any (fun c => c.2)

/-- client.go getProcessExists: each successfully read /proc/N/cmdline
file (passed in as procFiles) is cut at its first NUL byte, reduced to
its basename, entries reducing to "." are skipped, and the function
reports whether any watchdog name equals such a basename. -/
def getProcessExists (pnames : List String) (procFiles : List String) : Bool :=
  procFiles.any (fun pr =>
    let cmdb := pathBase (String.mk (pr.toList.takeWhile (fun c => c != '\x00')))
    cmdb != "." && pnames.contains cmdb)

/-- client.go handleChildExit: record whether the exiting pid was
tracked, remove it, return early if a tracked child remains, otherwise
override the tracked flag with the watchdog probe when watchdog names
are configured, and initiate shutdown() when the resulting flag is set
and AutoShutdown is yes. Returns the new registry and whether shutdown()
was invoked. -/
def handleChildExit (p : Profile) (procFiles : List String)
    (children : List (Nat × Bool)) (pid : Nat) : List (Nat × Bool) × Bool :=
  let track := lookupTrack children pid
  let children2 := removeChild children pid
  if anyTracked children2 then (children2, false)
  else
    let track2 := if p.watchdog.isEmpty then track else !getProcessExists p.watchdog procFiles
    (children2, track2 && (p.autoShutdown == ShutdownMode.yes))

/-- C4 (counterexample): the claim says shutdown is initiated only when
the LAST TRACKED child exits. Here the only registry entry is an
untracked pid 5; a watchdog name is configured but absent from the
process list, so the code replaces the tracked flag with the probe
result and initiates shutdown although the exiting child was untracked. -/
theorem c4_counterexample :
    (handleChildExit
        ⟨"t", "/bin/x", false, [], ⟨SeccompMode.disabled, false⟩, false, ["wd"],
          ShutdownMode.yes, [], []⟩
        [] [(5, false)] 5).2 = true
    ∧ lookupTrack [(5, false)] 5 = false := by
  decide

/-- C4 (amended): on every child exit the exiting pid is removed from
the registry, and shutdown() is initiated iff no tracked child remains
after the removal, AutoShutdown is yes, and - when watchdog names are
configured - no watchdog name matches a /proc cmdline basename, while -
when none are configured - the exiting child itself was tracked. -/
theorem c4_amended : ∀ (p : Profile) (procFiles : List String)
    (children : List (Nat × Bool)) (pid : Nat),
    (handleChildExit p procFiles children pid).1 = removeChild children pid ∧
    ((handleChildExit p procFiles children pid).2 = true ↔
      (anyTracked (removeChild children pid) = false ∧
        (if p.watchdog.isEmpty then lookupTrack children pid = true
          else getProcessExists p.watchdog procFiles = false) ∧
        p.autoShutdown = ShutdownMode.yes)) := by
  intro p procFiles children pid
  unfold handleChildExit
  cases hrem : anyTracked (removeChild children pid) <;>
    cases hwd : p.watchdog.isEmpty <;>
      simp [hrem, hwd, Bool.and_eq_true]

/-! ### C6: OZ_ environment propagation -/

/-- client.go setEnvironOverrides: append to env every variable of the
ambient environment (os.Environ, passed in as environ) whose name begins
with OZ_. -/
def setEnvironOverrides (env environ : List String) : List String :=
  env ++ environ.filter (fun e => strStartsWith e "OZ_")

/-- The environment built for the child in launchApplication:
cmd.Env starts empty, receives the OZ_ overrides, then the launch
environment. -/
def launchApplicationEnv (environ launchEnv : List String) : List String :=
  setEnvironOverrides [] environ ++ launchEnv

/-- The environment built in launchTerminalServer: the OZ_ overrides,
then the PS1 prompt formatted with the profile name, then the launch
environment. -/
def launchTerminalServerEnv (environ launchEnv : List String) (profileName : String) :
    List String :=
  setEnvironOverrides [] environ ++ ["PS1=[" ++ profileName ++ "] $ "] ++ launchEnv

/-- The environment built in startXpraServer: HOME, then the OZ_
overrides. -/
def startXpraServerEnv (environ : List String) (homeDir : String) : List String :=
  setEnvironOverrides ["HOME=" ++ homeDir] environ

/-- The environment built in launchTerminalApplication: only the fixed
PS1 prompt and the launch environment - setEnvironOverrides is never
called there, so this environment does not depend on init's ambient
environment at all. -/
def launchTerminalApplicationEnv (launchEnv : List String) : List String :=
  ["PS1=[\\h] $ "] ++ launchEnv

/-- C6 (counterexample): the claim includes the terminal application
launch among the spawns receiving every OZ_ variable. With the ambient
environment containing OZ_X=1 and an empty launch environment, the
terminal application's environment is just the PS1 entry and does not
contain OZ_X=1. -/
theorem c6_counterexample :
    strStartsWith "OZ_X=1" "OZ_" = true
    ∧ "OZ_X=1" ∈ launchApplicationEnv ["OZ_X=1"] []
    ∧ "OZ_X=1" ∉ launchTerminalApplicationEnv [] := by
  decide

/-- C6 (amended): every ambient environment variable beginning with OZ_
is present in the environment of the plain application launch, the
terminal server, and the xpra server; the terminal application launch
receives no such propagation. -/
theorem c6_amended : ∀ (environ launchEnv : List String) (homeDir profileName v : String),
    v ∈ environ → strStartsWith v "OZ_" = true →
    v ∈ launchApplicationEnv environ launchEnv
    ∧ v ∈ launchTerminalServerEnv environ launchEnv profileName
    ∧ v ∈ startXpraServerEnv environ homeDir := by
  intro environ launchEnv homeDir profileName v hv hpre
  have hfil : v ∈ environ.filter (fun e => strStartsWith e "OZ_") :=
    List.mem_filter.mpr ⟨hv, hpre⟩
  refine ⟨?_, ?_, ?_⟩
  · exact List.mem_append.mpr (Or.inl (by simpa [setEnvironOverrides] using hfil))
  · unfold launchTerminalServerEnv setEnvironOverrides
    simp only [List.nil_append, List.append_assoc, List.mem_append]
    exact Or.inl hfil
  · unfold startXpraServerEnv setEnvironOverrides
    exact List.mem_append.mpr (Or.inr hfil)

/-- C6 (witness): the amended theorem applied to a concrete environment. -/
theorem c6_witness :
    "OZ_SOCKET_NAME=@oz" ∈ launchApplicationEnv ["OZ_SOCKET_NAME=@oz", "LANG=C"] ["HOME=/h"] :=
  (c6_amended ["OZ_SOCKET_NAME=@oz", "LANG=C"] ["HOME=/h"] "/h" "editor" "OZ_SOCKET_NAME=@oz"
    (by decide) (by decide)).1

/-! ### C7: the child working directory -/

/-- The working-directory selection shared by launchApplication and
launchTerminalApplication: an empty requested pwd is replaced by the
user's home directory, and cmd.Dir is set only when the resulting path
exists (os.Stat succeeds, modelled by the statExists oracle); otherwise
cmd.Dir stays unset (none) and the child inherits init's own working
directory. -/
def launchDirOf (statExists : String → Bool) (pwd homeDir : String) : Option String :=
  let pwd2 := if pwd == "" then homeDir else pwd
  if statExists pwd2 then some pwd2 else none

/-- C7 (counterexample): the claim says the child's CWD equals
user.HomeDir whenever the requested pwd is nonempty but does not exist.
With only /home/u existing and pwd=/nope, cmd.Dir is left unset (the
child inherits init's CWD); it is not /home/u. -/
theorem c7_counterexample :
    launchDirOf (fun s => s == "/home/u") "/nope" "/home/u" = none
    ∧ launchDirOf (fun s => s == "/home/u") "/nope" "/home/u" ≠ some "/home/u" := by
  decide

/-- C7 (amended): the child's cmd.Dir is the requested pwd when pwd is
nonempty and exists; it is user.HomeDir when pwd is empty and the home
directory exists; in every other case (including a nonempty pwd that
does not exist) cmd.Dir is left unset and the child inherits init's
working directory. -/
theorem c7_amended : ∀ (statExists : String → Bool) (pwd homeDir : String),
    (pwd ≠ "" → statExists pwd = true → launchDirOf statExists pwd homeDir = some pwd)
    ∧ (pwd = "" → statExists homeDir = true → launchDirOf statExists pwd homeDir = some homeDir)
    ∧ (pwd ≠ "" → statExists pwd = false → launchDirOf statExists pwd homeDir = none)
    ∧ (pwd = "" → statExists homeDir = false → launchDirOf statExists pwd homeDir = none) := by
  intro statExists pwd homeDir
  refine ⟨?_, ?_, ?_, ?_⟩
  · intro hne hex
    unfold launchDirOf
    simp [hne, hex]
  · intro he hex
    subst he
    unfold launchDirOf
    simp [hex]
  · intro hne hex
    unfold launchDirOf
    simp [hne, hex]
  · intro he hex
    subst he
    unfold launchDirOf
    simp [hex]

/-- C7 (witness): the amended theorem applied to an existing concrete
pwd. -/
theorem c7_witness :
    launchDirOf (fun s => s == "/tmp") "/tmp" "/home/u" = some "/tmp" :=
  (c7_amended (fun s => s == "/tmp") "/tmp" "/home/u").1 (by decide) (by decide)

/-! ### C8: idempotence of shutdown() -/

/-- The slice of initState that shutdown() touches: the
shutdownRequested latch, the child registry snapshot, whether an xpra
handle is set, and whether the IPC server handle is set. -/
structure InitSt where
  shutdownRequested : Bool
  children : List (Nat × Bool)
  xpraRunning : Bool
  ipcOpen : Bool
deriving DecidableEq

/-- The observable actions shutdown() performs. -/
inductive ShutdownAction
  | sigint (pid : Nat)
  | stopXpra
  | closeIpc
deriving DecidableEq

/-- client.go shutdown(): return immediately when already requested;
otherwise set the latch, send SIGINT to every registered child
(childrenVector snapshot), stop xpra when a handle is set
(shutdownXpra), and close the IPC server when set. The state fields
other than the latch are not mutated. -/
def shutdown (s : InitSt) : InitSt × List ShutdownAction :=
  if s.shutdownRequested then (s, [])
  else
    ({ s with shutdownRequested := true },
      s.children.map (fun c => ShutdownAction.sigint c.1)
        ++ (if s.xpraRunning then [ShutdownAction.stopXpra] else [])
        ++ (if s.ipcOpen then [ShutdownAction.closeIpc] else []))

/-- N successive invocations of shutdown(), accumulating the performed
actions. -/
def iterShutdown : Nat → InitSt → InitSt × List ShutdownAction
  | 0, s => (s, [])
  | n + 1, s =>
    let r := shutdown s
    let r2 := iterShutdown n r.1
    (r2.1, r.2 ++ r2.2)

theorem shutdown_of_requested (s : InitSt) (h : s.shutdownRequested = true) :
    shutdown s = (s, []) := by
  unfold shutdown
  simp [h]

theorem shutdown_latches (s : InitSt) : (shutdown s).1.shutdownRequested = true := by
  unfold shutdown
  cases h : s.shutdownRequested <;> simp [h]

theorem iterShutdown_of_requested (n : Nat) (s : InitSt) (h : s.shutdownRequested = true) :
    iterShutdown n s = (s, []) := by
  induction n with
  | zero => rfl
  | succ n ih =>
    unfold iterShutdown
    rw [shutdown_of_requested s h]
    simp [ih]

/-- C8: shutdown() is idempotent: N+1 invocations produce exactly the
state and action trace of a single invocation; an invocation on an
already-latched state changes nothing and performs no action; and a
first invocation performs one SIGINT per registered child, stops xpra at
most (exactly, when running) once and closes the IPC server at most
once. -/
theorem c8_shutdown_idempotent : ∀ (s : InitSt) (n : Nat),
    iterShutdown (n + 1) s = iterShutdown 1 s ∧
    shutdown (shutdown s).1 = ((shutdown s).1, []) ∧
    (s.shutdownRequested = false →
      (shutdown s).2
        = s.children.map (fun c => ShutdownAction.sigint c.1)
          ++ (if s.xpraRunning then [ShutdownAction.stopXpra] else [])
          ++ (if s.ipcOpen then [ShutdownAction.closeIpc] else [])) := by
  intro s n
  refine ⟨?_, shutdown_of_requested _ (shutdown_latches s), ?_⟩
  · have h1 := iterShutdown_of_requested n (shutdown s).1 (shutdown_latches s)
    have h0 := iterShutdown_of_requested 0 (shutdown s).1 (shutdown_latches s)
    show iterShutdown (n + 1) s = iterShutdown (0 + 1) s
    unfold iterShutdown
    simp [h1, h0]
  · intro h
    unfold shutdown
    simp [h]

/-- C8 (witness): the idempotence theorem applied to a concrete fresh
state. -/
theorem c8_witness :
    (shutdown ⟨false, [(4, true), (9, false)], true, true⟩).2
      = [ShutdownAction.sigint 4, ShutdownAction.sigint 9,
          ShutdownAction.stopXpra, ShutdownAction.closeIpc] := by
  rw [(c8_shutdown_idempotent ⟨false, [(4, true), (9, false)], true, true⟩ 3).2.2 rfl]
  decide

/-! ### C3: seccomp wrapping in launchApplication -/

/-- The cpath diversion applied at the top of launchApplication (and
launchTerminalApplication): default to the profile path, append the
divert suffix, and with DivertPath rewrite the directory to dir-oz. -/
def divertedPath (cfg : OzConfig) (p : Profile) (cpath0 : String) : String :=
  let c1 := if cpath0 == "" then p.path else cpath0
  let c2 := if cfg.divertSuffix != "" then c1 ++ "." ++ cfg.divertSuffix else c1
  if cfg.divertPath then pathJoin (pathDir c2 ++ "-oz") (pathBase c2) else c2

/-- The argument policy of launchApplication: RejectUserArgs discards the
caller arguments, then DefaultParams are prepended. -/
def policiedArgs (p : Profile) (args0 : List String) : List String :=
  let a := if p.rejectUserArgs then [] else args0
  p.defaultParams ++ a

/-- path.Join(config.PrefixPath, "bin", "oz-seccomp"). -/
def ozSeccompPath (cfg : OzConfig) : String :=
  pathJoin (pathJoin cfg.prefixPath "bin") "oz-seccomp"

/-- path.Join(config.PrefixPath, "bin", "oz-seccomp-tracer"). -/
def ozSeccompTracerPath (cfg : OzConfig) : String :=
  pathJoin (pathJoin cfg.prefixPath "bin") "oz-seccomp-tracer"

/-- The seccomp wrapping switch of launchApplication: the returned pair
is (the executable handed to exec.Command, the argument list later
appended to cmd.Args). In training mode the inner flag is the literal
"-mode=whitelist"; non-enforcing whitelist mode additionally passes
"-r" "-p" "-" to the tracer. -/
def launchApplicationArgv (cfg : OzConfig) (p : Profile) (cpath0 : String)
    (args0 : List String) : String × List String :=
  let cpath := divertedPath cfg p cpath0
  let args := policiedArgs p args0
  match p.seccomp.mode with
  | .train =>
    (ozSeccompTracerPath cfg, ozSeccompPath cfg :: "-mode=whitelist" :: cpath :: args)
  | .whitelist =>
    if p.seccomp.enforce = false then
      (ozSeccompTracerPath cfg,
        "-r" :: "-p" :: "-" :: ozSeccompPath cfg :: "-mode=whitelist" :: cpath :: args)
    else (ozSeccompPath cfg, "-mode=whitelist" :: cpath :: args)
  | .blacklist =>
    if p.seccomp.enforce = false then
      (ozSeccompTracerPath cfg, ozSeccompPath cfg :: "-mode=blacklist" :: cpath :: args)
    else (ozSeccompPath cfg, "-mode=blacklist" :: cpath :: args)
  | .disabled => (cpath, args)

theorem dropWhile_slash_append (a m : List Char) (ha : a ≠ [])
    (h : ∀ c ∈ a, (c == '/') = false) :
    (a ++ '/' :: m).dropWhile (fun c => c == '/') = a ++ '/' :: m := by
  cases a with
  | nil => exact absurd rfl ha
  | cons x xs =>
    have hx : (x == '/') = false := h x (by simp)
    simp [List.dropWhile_cons, hx]

theorem takeWhile_notSlash_append (a m : List Char)
    (h : ∀ c ∈ a, (c == '/') = false) :
    (a ++ '/' :: m).takeWhile (fun c => c != '/') = a := by
  induction a with
  | nil => simp [List.takeWhile_cons]
  | cons x xs ih =>
    have hx : (x == '/') = false := h x (by simp)
    have hx' : (x != '/') = true := by simp [bne, hx]
    simp only [List.cons_append, List.takeWhile_cons, hx', if_true]
    rw [ih (fun c hc => h c (by simp [hc]))]

theorem pathBaseChars_append (l t : List Char) (ht : t ≠ [])
    (h : ∀ c ∈ t, (c == '/') = false) :
    pathBaseChars (l ++ '/' :: t) = t := by
  unfold pathBaseChars
  have hrev : (l ++ '/' :: t).reverse = t.reverse ++ '/' :: l.reverse := by simp
  rw [hrev]
  have ha : t.reverse ≠ [] := by simpa using ht
  have h2 : ∀ c ∈ t.reverse, (c == '/') = false :=
    fun c hc => h c (List.mem_reverse.mp hc)
  rw [dropWhile_slash_append _ _ ha h2]
  have hne : (t.reverse ++ '/' :: l.reverse).isEmpty = false := by
    cases hr : t.reverse with
    | nil => exact absurd hr ha
    | cons x xs => simp
  simp only [hne, Bool.false_eq_true, if_false]
  rw [takeWhile_notSlash_append _ _ h2, List.reverse_reverse]

theorem pathBase_pathJoin (x t : String) (hx : x ≠ "") (ht : t.toList ≠ [])
    (h : ∀ c ∈ t.toList, (c == '/') = false) :
    pathBase (pathJoin x t) = t := by
  have hx' : (x == "") = false := by simpa using hx
  have htne : t ≠ "" := by
    intro he
    subst he
    exact ht rfl
  have ht' : (t == "") = false := by simpa using htne
  unfold pathJoin
  rw [hx', ht']
  simp only [Bool.false_eq_true, if_false]
  have hdata : (x ++ "/" ++ t).toList = x.toList ++ '/' :: t.toList := by
    have h1 : (x ++ "/" ++ t).toList
        = x.toList ++ ("/" : String).toList ++ t.toList := rfl
    rw [h1]
    simp
  unfold pathBase
  rw [hdata]
  have hne : (x.toList ++ '/' :: t.toList).isEmpty = false := by
    cases x.toList with
    | nil => simp
    | cons c cs => simp
  simp only [hne, Bool.false_eq_true, if_false]
  rw [pathBaseChars_append _ _ ht h]
  exact rfl

theorem pathJoin_bin_ne (a : String) : pathJoin a "bin" ≠ "" := by
  by_cases h : a = ""
  · subst h
    decide
  · have h' : (a == "") = false := by simpa using h
    unfold pathJoin
    rw [h']
    simp only [Bool.false_eq_true, if_false]
    have hb : (("bin" : String) == "") = false := rfl
    rw [hb]
    simp only [Bool.false_eq_true, if_false]
    intro he
    have h1 : (a ++ "/" ++ "bin").toList
        = a.toList ++ ("/" : String).toList ++ ("bin" : String).toList := rfl
    rw [he] at h1
    simp at h1

theorem pathBase_ozSeccompTracerPath (cfg : OzConfig) :
    pathBase (ozSeccompTracerPath cfg) = "oz-seccomp-tracer" := by
  unfold ozSeccompTracerPath
  apply pathBase_pathJoin
  · exact pathJoin_bin_ne cfg.prefixPath
  · decide
  · decide

theorem pathBase_ozSeccompPath (cfg : OzConfig) :
    pathBase (ozSeccompPath cfg) = "oz-seccomp" := by
  unfold ozSeccompPath
  apply pathBase_pathJoin
  · exact pathJoin_bin_ne cfg.prefixPath
  · decide
  · decide

/-- C3 (counterexample): in training mode the claim expects the inner
argv flag "-mode=train"; the code passes "-mode=whitelist" to the
wrapped oz-seccomp. -/
theorem c3_counterexample :
    launchApplicationArgv ⟨false, "/bin/sh", "/opt/oz", "", false⟩
        ⟨"app", "/usr/bin/app", false, [], ⟨SeccompMode.train, false⟩, false, [],
          ShutdownMode.no, [], []⟩ "" ["a.txt"]
      = ("/opt/oz/bin/oz-seccomp-tracer",
          ["/opt/oz/bin/oz-seccomp", "-mode=whitelist", "/usr/bin/app", "a.txt"])
    ∧ launchApplicationArgv ⟨false, "/bin/sh", "/opt/oz", "", false⟩
        ⟨"app", "/usr/bin/app", false, [], ⟨SeccompMode.train, false⟩, false, [],
          ShutdownMode.no, [], []⟩ "" ["a.txt"]
      ≠ ("/opt/oz/bin/oz-seccomp-tracer",
          ["/opt/oz/bin/oz-seccomp", "-mode=train", "/usr/bin/app", "a.txt"]) := by
  decide

/-- C3 (amended): in the application launcher, training mode and the
non-enforcing whitelist/blacklist modes spawn the oz-seccomp-tracer
binary as the outer executable: training mode and non-enforcing
blacklist pass inner argv [oz-seccomp, -mode=whitelist resp.
-mode=blacklist, target, args...], while non-enforcing whitelist mode
passes [-r, -p, -, oz-seccomp, -mode=whitelist, target, args...];
enforcing whitelist/blacklist modes spawn oz-seccomp with argv
[-mode=mode, target, args...]; disabled mode executes the (diverted)
target directly with the policy-filtered args and no wrapper. -/
theorem c3_amended : ∀ (cfg : OzConfig) (p : Profile) (cpath0 : String)
    (args0 : List String),
    (p.seccomp.mode = SeccompMode.train →
      launchApplicationArgv cfg p cpath0 args0
        = (ozSeccompTracerPath cfg,
            ozSeccompPath cfg :: "-mode=whitelist" :: divertedPath cfg p cpath0
              :: policiedArgs p args0)
      ∧ pathBase (launchApplicationArgv cfg p cpath0 args0).1 = "oz-seccomp-tracer") ∧
    (p.seccomp.mode = SeccompMode.whitelist → p.seccomp.enforce = false →
      launchApplicationArgv cfg p cpath0 args0
        = (ozSeccompTracerPath cfg,
            "-r" :: "-p" :: "-" :: ozSeccompPath cfg :: "-mode=whitelist"
              :: divertedPath cfg p cpath0 :: policiedArgs p args0)
      ∧ pathBase (launchApplicationArgv cfg p cpath0 args0).1 = "oz-seccomp-tracer") ∧
    (p.seccomp.mode = SeccompMode.whitelist → p.seccomp.enforce = true →
      launchApplicationArgv cfg p cpath0 args0
        = (ozSeccompPath cfg,
            "-mode=whitelist" :: divertedPath cfg p cpath0 :: policiedArgs p args0)
      ∧ pathBase (launchApplicationArgv cfg p cpath0 args0).1 = "oz-seccomp") ∧
    (p.seccomp.mode = SeccompMode.blacklist → p.seccomp.enforce = false →
      launchApplicationArgv cfg p cpath0 args0
        = (ozSeccompTracerPath cfg,
            ozSeccompPath cfg :: "-mode=blacklist" :: divertedPath cfg p cpath0
              :: policiedArgs p args0)
      ∧ pathBase (launchApplicationArgv cfg p cpath0 args0).1 = "oz-seccomp-tracer") ∧
    (p.seccomp.mode = SeccompMode.blacklist → p.seccomp.enforce = true →
      launchApplicationArgv cfg p cpath0 args0
        = (ozSeccompPath cfg,
            "-mode=blacklist" :: divertedPath cfg p cpath0 :: policiedArgs p args0)
      ∧ pathBase (launchApplicationArgv cfg p cpath0 args0).1 = "oz-seccomp") ∧
    (p.seccomp.mode = SeccompMode.disabled →
      launchApplicationArgv cfg p cpath0 args0
        = (divertedPath cfg p cpath0, policiedArgs p args0)) := by
  intro cfg p cpath0 args0
  refine ⟨?_, ?_, ?_, ?_, ?_, ?_⟩
  · intro hm
    have he : launchApplicationArgv cfg p cpath0 args0
        = (ozSeccompTracerPath cfg,
            ozSeccompPath cfg :: "-mode=whitelist" :: divertedPath cfg p cpath0
              :: policiedArgs p args0) := by
      unfold launchApplicationArgv
      rw [hm]
    exact ⟨he, by rw [he]; exact pathBase_ozSeccompTracerPath cfg⟩
  · intro hm hen
    have he : launchApplicationArgv cfg p cpath0 args0
        = (ozSeccompTracerPath cfg,
            "-r" :: "-p" :: "-" :: ozSeccompPath cfg :: "-mode=whitelist"
              :: divertedPath cfg p cpath0 :: policiedArgs p args0) := by
      unfold launchApplicationArgv
      rw [hm]
      simp [hen]
    exact ⟨he, by rw [he]; exact pathBase_ozSeccompTracerPath cfg⟩
  · intro hm hen
    have he : launchApplicationArgv cfg p cpath0 args0
        = (ozSeccompPath cfg,
            "-mode=whitelist" :: divertedPath cfg p cpath0 :: policiedArgs p args0) := by
      unfold launchApplicationArgv
      rw [hm]
      simp [hen]
    exact ⟨he, by rw [he]; exact pathBase_ozSeccompPath cfg⟩
  · intro hm hen
    have he : launchApplicationArgv cfg p cpath0 args0
        = (ozSeccompTracerPath cfg,
            ozSeccompPath cfg :: "-mode=blacklist" :: divertedPath cfg p cpath0
              :: policiedArgs p args0) := by
      unfold launchApplicationArgv
      rw [hm]
      simp [hen]
    exact ⟨he, by rw [he]; exact pathBase_ozSeccompTracerPath cfg⟩
  · intro hm hen
    have he : launchApplicationArgv cfg p cpath0 args0
        = (ozSeccompPath cfg,
            "-mode=blacklist" :: divertedPath cfg p cpath0 :: policiedArgs p args0) := by
      unfold launchApplicationArgv
      rw [hm]
      simp [hen]
    exact ⟨he, by rw [he]; exact pathBase_ozSeccompPath cfg⟩
  · intro hm
    unfold launchApplicationArgv
    rw [hm]

/-- C3 (witness): the amended theorem applied to an enforcing whitelist
profile. -/
theorem c3_witness :
    launchApplicationArgv ⟨false, "/bin/sh", "/opt/oz", "", false⟩
        ⟨"app", "/usr/bin/app", false, [], ⟨SeccompMode.whitelist, true⟩, false, [],
          ShutdownMode.no, [], []⟩ "" ["a.txt"]
      = ("/opt/oz/bin/oz-seccomp", ["-mode=whitelist", "/usr/bin/app", "a.txt"]) := by
  have h := ((c3_amended ⟨false, "/bin/sh", "/opt/oz", "", false⟩
      ⟨"app", "/usr/bin/app", false, [], ⟨SeccompMode.whitelist, true⟩, false, [],
        ShutdownMode.no, [], []⟩ "" ["a.txt"]).2.2.1 rfl rfl).1
  rw [h]
  decide

/-! ### C10: the OpenVPN configuration translator (openvpn/openvpn.go) -/

/-- The whitespace class of the Go regexp token [^\s]+. -/
def isGoSpace (c : Char) : Bool :=
  c == ' ' || c == '\t' || c == '\n' || c == '\r' || c == '\x0c'

/-- Splitting a line into maximal non-whitespace runs
(regexp.FindAllString with [^\s]+). -/
def splitTokensAux (cur : List Char) : List Char → List (List Char)
  | [] => if cur.isEmpty then [] else [cur.reverse]
  | c :: cs =>
    if isGoSpace c then
      if cur.isEmpty then splitTokensAux [] cs else cur.reverse :: splitTokensAux [] cs
    else splitTokensAux (c :: cur) cs

def tokensOf (line : String) : List String :=
  (splitTokensAux [] line.toList).map String.mk

/-- The comment strip regexp (a hash and everything after the LAST hash
is removed; a token without a hash is unchanged). -/
def stripComment (s : String) : String :=
  if s.toList.contains '#' then
    String.mk (((s.toList.reverse.dropWhile (fun c => c != '#')).drop 1).reverse)
  else s

/-- The per-token loop of parseOpenVPNConf: keep each stripped token if
non-empty, and stop at the first token the comment strip modified. -/
def commentFilterTokens : List String → List String
  | [] => []
  | v :: rest =>
    let nw := stripComment v
    let keep := if nw != "" then [nw] else []
    if v != nw then keep else keep ++ commentFilterTokens rest

/-- The tokens of one configuration line after tokenisation and comment
filtering (the list x in parseOpenVPNConf's scan loop). -/
def processTokens (line : String) : List String :=
  commentFilterTokens (tokensOf line)

/-- The directives parseOpenVPNConf silently filters (every case of the
switch that is a bare continue). -/
def ovpnDropSet : List String :=
  ["persist-tun", "auth-nocache", "iproute", "route-up", "config",
    "route-pre-down", "down", "script-security", "ipchange", "up", "cd",
    "chroot", "setenv", "setenv-safe", "group", "user", "daemon", "syslog",
    "log", "log-append", "echo", "status", "mode", "client", "server",
    "management", "plugin", "ifconfig", "writepid"]

/-- The line scan of parseOpenVPNConf. The first argument is some
closing tag while the scanner is inside a <cert>/<ca>/<key>/<tls-auth>
block (whose raw lines are consumed by the inner scanner loop and
contribute nothing to the argv; the corresponding flag pair is emitted
when the opening tag is seen, which yields the same list as the source's
append after the inner loop). File-writing side effects of the block
cases are not part of the returned argv and are omitted. -/
def ovpnConvLines (confDir runPath auth runtoken : String) :
    Option String → List String → List String
  | _, [] => []
  | some tag, l :: rest =>
    if l == tag then ovpnConvLines confDir runPath auth runtoken none rest
    else ovpnConvLines confDir runPath auth runtoken (some tag) rest
  | none, l :: rest =>
    match processTokens l with
    | [] => ovpnConvLines confDir runPath auth runtoken none rest
    | d :: args =>
      if d == "auth-user-pass" then
        "--auth-nocache" :: "--auth-user-pass" :: pathJoin confDir auth
          :: ovpnConvLines confDir runPath auth runtoken none rest
      else if ovpnDropSet.contains d then
        ovpnConvLines confDir runPath auth runtoken none rest
      else if d == "ca" then
        (if args.length == 1 then ["--ca", pathJoin confDir (args.headD "")] else [])
          ++ ovpnConvLines confDir runPath auth runtoken none rest
      else if d == "crl-verify" then
        (if args.length == 1 then ["--crl-verify", pathJoin confDir (args.headD "")] else [])
          ++ ovpnConvLines confDir runPath auth runtoken none rest
      else if d == "<cert>" then
        "--cert" :: pathJoin runPath (runtoken ++ "-cert.cert")
          :: ovpnConvLines confDir runPath auth runtoken (some "</cert>") rest
      else if d == "<ca>" then
        "--ca" :: pathJoin runPath (runtoken ++ "-ca.cert")
          :: ovpnConvLines confDir runPath auth runtoken (some "</ca>") rest
      else if d == "<key>" then
        "--key" :: pathJoin runPath (runtoken ++ "-key.key")
          :: ovpnConvLines confDir runPath auth runtoken (some "</key>") rest
      else if d == "<tls-auth>" then
        "--tls-auth" :: pathJoin runPath (runtoken ++ "-tls-auth.key")
          :: ovpnConvLines confDir runPath auth runtoken (some "</tls-auth>") rest
      else
        ("--" ++ d) :: (args ++ ovpnConvLines confDir runPath auth runtoken none rest)

/-- The fixed options appended after the scan (pidfile, keepalive,
daemonisation, auth retry, the oz route scripts, and the three setenv
entries for the route scripts). -/
def ovpnExtra (runPath runtoken ipStr table dev : String) : List String :=
  ["--writepid", pathJoin runPath (runtoken ++ ".pid"), "--ping", "10",
    "--ping-restart", "60", "--daemon", "--auth-retry", "nointeract",
    "--route-noexec", "--route-up", "/usr/bin/oz-ovpn-route-up",
    "--route-pre-down", "/usr/bin/oz-ovpn-route-down", "--script-security", "2",
    "--setenv", "bridge_addr", ipStr, "--setenv", "routing_table", table,
    "--setenv", "bridge_dev", dev]

/-- openvpn.go parseOpenVPNConf: "--client", then the per-line
conversion of the configuration file (given as its list of lines), then
the fixed trailing options. -/
def parseOpenVPNConf (confDir runPath auth runtoken ipStr table dev : String)
    (lines : List String) : List String :=
  "--client" :: (ovpnConvLines confDir runPath auth runtoken none lines
    ++ ovpnExtra runPath runtoken ipStr table dev)

/-- C10: for every configuration, the produced argv begins with
"--client" and ends with the fixed trailing options; a line whose first
processed token is a filtered directive (user, group, daemon, up, down,
route-up, route-pre-down, script-security, management, plugin, chroot,
setenv, ... - the full ovpnDropSet) contributes nothing to the argv; and
an auth-user-pass line is rewritten to
--auth-nocache --auth-user-pass confdir/auth. -/
theorem c10_parse_openvpn : ∀ (confDir runPath auth runtoken ipStr table dev : String)
    (lines : List String),
    (parseOpenVPNConf confDir runPath auth runtoken ipStr table dev lines).head?
      = some "--client" ∧
    (ovpnExtra runPath runtoken ipStr table dev)
      <:+ parseOpenVPNConf confDir runPath auth runtoken ipStr table dev lines ∧
    (∀ (line : String) (rest : List String) (d : String) (args : List String),
      processTokens line = d :: args → d ∈ ovpnDropSet →
      ovpnConvLines confDir runPath auth runtoken none (line :: rest)
        = ovpnConvLines confDir runPath auth runtoken none rest) ∧
    (∀ (line : String) (rest : List String) (args : List String),
      processTokens line = "auth-user-pass" :: args →
      ovpnConvLines confDir runPath auth runtoken none (line :: rest)
        = "--auth-nocache" :: "--auth-user-pass" :: pathJoin confDir auth
          :: ovpnConvLines confDir runPath auth runtoken none rest) := by
  intro confDir runPath auth runtoken ipStr table dev lines
  refine ⟨rfl, ?_, ?_, ?_⟩
  · exact ⟨"--client" :: ovpnConvLines confDir runPath auth runtoken none lines, rfl⟩
  · intro line rest d args hpt hd
    have hne : (d == "auth-user-pass") = false := by
      apply beq_eq_false_iff_ne.mpr
      intro he
      subst he
      revert hd
      decide
    have hc : ovpnDropSet.contains d = true := by
      exact List.elem_iff.mpr hd
    simp only [ovpnConvLines]
    rw [hpt]
    simp [hne, hc]
    exact fun h => absurd hd h
  · intro line rest args hpt
    simp only [ovpnConvLines]
    rw [hpt]
    simp

/-- C10 (witness): a filtered "user" directive line contributes nothing. -/
theorem c10_witness :
    ovpnConvLines "/etc/oz/vpn" "/run/oz" "auth.txt" "tok" none ["user nobody", "verb 3"]
      = ovpnConvLines "/etc/oz/vpn" "/run/oz" "auth.txt" "tok" none ["verb 3"] :=
  (c10_parse_openvpn "/etc/oz/vpn" "/run/oz" "auth.txt" "tok" "10.1.1.1" "7" "veth0"
      ["user nobody", "verb 3"]).2.2.1 "user nobody" ["verb 3"] "user" ["nobody"]
    (by decide) (by decide)

end Oz
